import Mathlib

/-
Shallow embedding of `src/senec2mqtt/senec_data_collector.py`
(class `SenecDataCollector`).

The collector is a thread that polls a device, pushing each fetched raw
status record into a FIFO queue.  We model its observable state as a
structure: the cooperative stop flag (`threading.Event`), the queue
(`queue.Queue`, a FIFO modelled as a `List` with enqueue at the tail and
dequeue at the head), and a counter of Fetcher invocations (used to index
successive results of a Fetcher stub).  The device address and the interval
field stored by `__init__` do not influence any modelled operation (the
interval only feeds `time.sleep`, which we model by the loop fuel), so they
are not carried in the state.

The Fetcher collaborator (the `run` coroutine awaited through
`asyncio.gather` at line 86) is modelled as a function from the invocation
index to `Except String (List α)`: `asyncio.gather` returns a list of
results, and a raised exception is an `Except.error`.  The element type of a
raw status record is a type parameter `α`, since the collector passes the
records through verbatim.
-/

namespace Senec2Mqtt

/-- Observable state of a `SenecDataCollector` instance: the stop event,
the FIFO queue (head = oldest entry), and how many times the Fetcher has
been invoked. -/
structure CollectorState (α : Type) where
  stopFlag : Bool
  queue : List α
  fetchCalls : Nat
deriving Repr, DecidableEq

/-- The state produced by a successful `__init__` (lines 29-39): stop event
unset, empty queue, no Fetcher calls yet. -/
def initialState (α : Type) : CollectorState α :=
  { stopFlag := false, queue := [], fetchCalls := 0 }

/-- The `logging.warning` message emitted at lines 33-34. -/
def intervalWarning : String :=
  "The logging interval is below the recommended period time (1 min),\nmay this leads to trouble with the device connection to the cloud!"

/-- The `ValueError` message raised at line 36. -/
def intervalError : String :=
  "No interval below 10 sec allowed!"

/-- `SenecDataCollector.__init__` (lines 21-39).  Returns the list of
warnings emitted (line 32: warn when `interval_s < 60`, checked before the
validity check) together with either the constructed state or the
`ValueError` raised at line 36 when `interval_s < 10`. -/
def senec_init (α : Type) (interval_s : Int) : List String × Except String (CollectorState α) :=
  let warnings : List String := if interval_s < 60 then [intervalWarning] else []
  if interval_s < 10 then
    (warnings, Except.error intervalError)
  else
    (warnings, Except.ok (initialState α))

/-- `SenecDataCollector.stop` (lines 41-46): set the stop event. -/
def stop {α : Type} (s : CollectorState α) : CollectorState α :=
  { s with stopFlag := true }

/-- `SenecDataCollector._collect_data` (lines 60-93).  First it calls
`self.stop()` (line 81, marked `# todo: remove me` in the source), then it
invokes the Fetcher through `asyncio.gather`, obtaining a list of results
(or a propagating exception).  If the list does not hold exactly one record
it raises `RuntimeError` (lines 88-89); otherwise it returns the single
record (line 93).  The returned pair is the state after the call together
with the normal result or the exception that escapes the call. -/
def collect_data {α : Type} (fetcher : Nat → Except String (List α))
    (s : CollectorState α) : CollectorState α × Except String α :=
  let s1 := stop s
  match fetcher s1.fetchCalls with
  | Except.error e => ({ s1 with fetchCalls := s1.fetchCalls + 1 }, Except.error e)
  | Except.ok collected =>
    let s2 := { s1 with fetchCalls := s1.fetchCalls + 1 }
    match collected with
    | [d] => (s2, Except.ok d)
    | _ => (s2, Except.error "Expect exact one set of data from pysenec instance!")

/-- `SenecDataCollector.run` (lines 48-58): `while not self._stop_event.is_set():
self._queue.put(self._collect_data()); time.sleep(self._interval_s)`.
The fuel argument counts the interval periods available for observation
(each loop iteration consumes one `time.sleep` period).  An exception
raised inside `_collect_data` is not caught anywhere in `run`, so it
terminates the loop exceptionally: that outcome is the `Except.error` in the
result, while `Except.ok ()` is a loop that is still alive (fuel exhausted)
or exited normally through the stop flag. -/
def run {α : Type} (fetcher : Nat → Except String (List α)) :
    Nat → CollectorState α → CollectorState α × Except String Unit
  | 0, s => (s, Except.ok ())
  | Nat.succ n, s =>
    if s.stopFlag then
      (s, Except.ok ())
    else
      match collect_data fetcher s with
      | (s1, Except.error e) => (s1, Except.error e)
      | (s1, Except.ok d) => run fetcher n { s1 with queue := s1.queue ++ [d] }

/-- `SenecDataCollector.available_data` (lines 95-101): `self._queue.qsize()`. -/
def available_data {α : Type} (s : CollectorState α) : Nat :=
  s.queue.length

/-- `SenecDataCollector.get_data` with `block=False` (lines 103-113):
`queue.Queue.get(block=False)` returns the oldest entry, and the
`queue.Empty` exception raised on an empty queue is caught and turned
into `None`. -/
def get_data {α : Type} (s : CollectorState α) : CollectorState α × Option α :=
  match s.queue with
  | [] => (s, none)
  | d :: rest => ({ s with queue := rest }, some d)

/-- `SenecDataCollector.get_all_data` (lines 115-128): repeatedly call
`get_data(block=False)`, appending each item to the result list, until it
returns `None`. -/
def get_all_data {α : Type} (s : CollectorState α) : CollectorState α × List α :=
  match h : get_data s with
  | (s1, some d) =>
    let r := get_all_data s1
    (r.1, d :: r.2)
  | (s1, none) => (s1, [])
termination_by s.queue.length
decreasing_by
  simp only [get_data] at h
  cases hq : s.queue with
  | nil => rw [hq] at h; simp at h
  | cons a rest =>
    rw [hq] at h
    simp only [Prod.mk.injEq] at h
    rw [← h.1]
    simp

/-- A Fetcher stub that fails on every invocation, modelling a device that
is unreachable each cycle. -/
def failing_fetcher : Nat → Except String (List Nat) :=
  fun _ => Except.error "FetchError"

/-- An adapter stub that violates the exactly-one-result contract on every
invocation: `asyncio.gather` yields an empty list of results, so the
`len(collected_data) != 1` check at lines 88-89 raises `RuntimeError`. -/
def empty_adapter : Nat → Except String (List Nat) :=
  fun _ => Except.ok []

/-
Helper lemmas shared by the claim theorems.
-/

/-- Once the stop event is set, the `run` loop exits at the top of the next
iteration without touching the state. -/
theorem run_of_stopFlag {α : Type} (f : Nat → Except String (List α)) (n : Nat)
    (s : CollectorState α) (h : s.stopFlag = true) :
    run f n s = (s, Except.ok ()) := by
  cases n with
  | zero => rfl
  | succ m => simp [run, h]

/-- `_collect_data` always leaves the same state: the stop event set (line
81) and the Fetcher invoked exactly once more, on every control path. -/
theorem collect_data_fst {α : Type} (f : Nat → Except String (List α))
    (s : CollectorState α) :
    (collect_data f s).1 = { s with stopFlag := true, fetchCalls := s.fetchCalls + 1 } := by
  cases hf : f s.fetchCalls with
  | error e => simp [collect_data, stop, hf]
  | ok collected =>
    cases collected with
    | nil => simp [collect_data, stop, hf]
    | cons a t =>
      cases t with
      | nil => simp [collect_data, stop, hf]
      | cons b t2 => simp [collect_data, stop, hf]

/-- `get_all_data` moves the whole queue, in order, into the returned list,
leaving the queue empty. -/
theorem get_all_data_spec {α : Type} : ∀ (q : List α) (fl : Bool) (fc : Nat),
    get_all_data ⟨fl, q, fc⟩ = (⟨fl, [], fc⟩, q) := by
  intro q
  induction q with
  | nil =>
    intro fl fc
    rw [get_all_data]
    simp [get_data]
  | cons d rest ih =>
    intro fl fc
    rw [get_all_data]
    simp [get_data, ih fl fc]

/-
Claim theorems.
-/

/-- C1: the claim expects that after `start()` and 3 full interval periods
with a Fetcher stub that always yields one record, the queue depth is 3
(within one, so at least 2).  In the code, `_collect_data` sets the stop
event before fetching (line 81, marked `# todo: remove me`), so the loop
enqueues exactly one item, contradicting both the claim and the periodic
polling the class documents. -/
theorem run_three_periods_single_item :
    ((run (fun _ => Except.ok [(1 : Nat)]) 3 (initialState Nat)).1).queue.length = 1 ∧
    ¬ 2 ≤ ((run (fun _ => Except.ok [(1 : Nat)]) 3 (initialState Nat)).1).queue.length := by
  decide

/-- C2 counterexample: with a Fetcher that fails every cycle and 5 interval
periods available, the exception escapes the `run` loop (there is no
try/except in `run` or `_collect_data`): the loop result is the error, only
one Fetcher invocation ever happens, and the loop does not continue to a
next iteration — falsifying the claim that in-loop errors are contained and
the background execution unit does not terminate. -/
theorem run_failing_fetcher_crashes :
    (run failing_fetcher 5 (initialState Nat)).2 = Except.error "FetchError" ∧
    ((run failing_fetcher 5 (initialState Nat)).1).fetchCalls = 1 ∧
    ((run failing_fetcher 5 (initialState Nat)).1).queue = [] := by
  exact ⟨rfl, rfl, rfl⟩

/-- C2 amended: for every fetch-cycle error — a Fetcher failure, or the
adapter yielding other than exactly one result (the `RuntimeError` of lines
88-89) — nothing is enqueued for that cycle and the error is not contained:
it propagates out of the `run` loop, terminating the background execution
unit after the single fetch attempt (whose `self.stop()` call has set the
stop event); the error never reaches the consumer through the queue, which
is left unchanged. -/
theorem run_fetch_error_escapes {α : Type} (f : Nat → Except String (List α))
    (s : CollectorState α) (n : Nat) (e : String)
    (h1 : s.stopFlag = false)
    (h2 : f s.fetchCalls = Except.error e ∨
      ∃ l, f s.fetchCalls = Except.ok l ∧ l.length ≠ 1 ∧
        e = "Expect exact one set of data from pysenec instance!") :
    run f (n + 1) s =
      ({ s with stopFlag := true, fetchCalls := s.fetchCalls + 1 }, Except.error e) := by
  rcases h2 with h2 | ⟨l, hf, hlen, he⟩
  · have hc : collect_data f s =
        ({ s with stopFlag := true, fetchCalls := s.fetchCalls + 1 }, Except.error e) := by
      simp [collect_data, stop, h2]
    simp [run, h1, hc]
  · subst he
    have hc : collect_data f s =
        ({ s with stopFlag := true, fetchCalls := s.fetchCalls + 1 },
          Except.error "Expect exact one set of data from pysenec instance!") := by
      cases l with
      | nil => simp [collect_data, stop, hf]
      | cons a t =>
        cases t with
        | nil => simp at hlen
        | cons b t2 => simp [collect_data, stop, hf]
    simp [run, h1, hc]

/-- C2 amended, witness: at the freshly constructed state, both error
kinds propagate out of the loop — the failing Fetcher with its own error,
and the zero-result adapter with the `RuntimeError` of lines 88-89. -/
theorem run_fetch_error_escapes_witness :
    (run failing_fetcher 1 (initialState Nat) =
      ({ stopFlag := true, queue := [], fetchCalls := 1 }, Except.error "FetchError")) ∧
    (run empty_adapter 1 (initialState Nat) =
      ({ stopFlag := true, queue := [], fetchCalls := 1 },
        Except.error "Expect exact one set of data from pysenec instance!")) :=
  ⟨run_fetch_error_escapes failing_fetcher (initialState Nat) 0 "FetchError" rfl
     (Or.inl rfl),
   run_fetch_error_escapes empty_adapter (initialState Nat) 0
     "Expect exact one set of data from pysenec instance!" rfl
     (Or.inr ⟨[], rfl, by simp, rfl⟩)⟩

/-- C3: every invocation of `_collect_data` sets the stop event (line 81
runs before the fetch, on every control path), so starting from the freshly
constructed state the loop never completes more than one fetch-and-enqueue
cycle: at most one item is ever enqueued and the Fetcher is invoked at most
once, whatever the Fetcher does and however many interval periods elapse. -/
theorem collect_data_self_stop_single_cycle {α : Type}
    (f : Nat → Except String (List α)) (s : CollectorState α) (n : Nat) :
    ((collect_data f s).1).stopFlag = true ∧
    ((run f n (initialState α)).1).queue.length ≤ 1 ∧
    ((run f n (initialState α)).1).fetchCalls ≤ 1 := by
  refine ⟨by rw [collect_data_fst], ?_⟩
  cases n with
  | zero => refine ⟨?_, ?_⟩ <;> simp [run, initialState]
  | succ m =>
    rcases hr : collect_data f (initialState α) with ⟨s1, r⟩
    have h1 := collect_data_fst f (initialState α)
    rw [hr] at h1
    simp only [initialState] at h1
    cases r with
    | error e =>
      simp only [initialState] at hr ⊢
      simp [run, hr, h1]
    | ok d =>
      simp only [initialState] at hr ⊢
      subst h1
      have hstep := run_of_stopFlag f m (⟨true, [d], 1⟩ : CollectorState α) rfl
      simp [run, hr, hstep]

/-- C4: construction succeeds exactly when the interval is at least 10
seconds; below 10 seconds `__init__` raises the `ValueError` of line 36 and
no collector state is produced. -/
theorem senec_init_interval_validation (i : Int) :
    (10 ≤ i → (senec_init Nat i).2 = Except.ok (initialState Nat)) ∧
    (i < 10 → (senec_init Nat i).2 = Except.error intervalError) := by
  constructor
  · intro h
    simp [senec_init, show ¬ i < 10 by omega]
  · intro h
    simp [senec_init, h]

/-- C4 witness: interval 60 constructs, interval 5 is rejected. -/
theorem senec_init_interval_validation_witness :
    (senec_init Nat 60).2 = Except.ok (initialState Nat) ∧
    (senec_init Nat 5).2 = Except.error intervalError :=
  ⟨(senec_init_interval_validation 60).1 (by norm_num),
   (senec_init_interval_validation 5).2 (by norm_num)⟩

/-- C5: constructions with interval in [10s, 60s) emit the
below-recommended-interval warning of lines 33-34; constructions with
interval at least 60s emit no warning. -/
theorem senec_init_warning_iff (i : Int) :
    (10 ≤ i → i < 60 → (senec_init Nat i).1 = [intervalWarning]) ∧
    (60 ≤ i → (senec_init Nat i).1 = []) := by
  constructor
  · intro h10 h60
    by_cases hv : i < 10
    · simp [senec_init, hv, h60]
    · simp [senec_init, hv, h60]
  · intro h
    have h60 : ¬ i < 60 := by omega
    have hv : ¬ i < 10 := by omega
    simp [senec_init, hv, h60]

/-- C5 witness: interval 30 warns, interval 120 does not. -/
theorem senec_init_warning_iff_witness :
    (senec_init Nat 30).1 = [intervalWarning] ∧ (senec_init Nat 120).1 = [] :=
  ⟨(senec_init_warning_iff 30).1 (by norm_num) (by norm_num),
   (senec_init_warning_iff 120).2 (by norm_num)⟩

/-- C6: with `block=False`, `get_data` on an empty queue returns `None`
without raising (the `queue.Empty` exception is caught at lines 110-113),
and on a non-empty queue it dequeues and returns the oldest entry. -/
theorem get_data_nonblocking {α : Type} (s : CollectorState α) :
    (s.queue = [] → get_data s = (s, none)) ∧
    (∀ d rest, s.queue = d :: rest → get_data s = ({ s with queue := rest }, some d)) := by
  constructor
  · intro h
    simp [get_data, h]
  · intro d rest h
    simp [get_data, h]

/-- C6 witness: empty queue yields `none`; queue [7, 8] yields its oldest
entry 7, leaving [8]. -/
theorem get_data_nonblocking_witness :
    get_data (initialState Nat) = (initialState Nat, none) ∧
    get_data (⟨false, [7, 8], 0⟩ : CollectorState Nat) =
      ((⟨false, [8], 0⟩ : CollectorState Nat), some 7) :=
  ⟨(get_data_nonblocking (initialState Nat)).1 rfl,
   (get_data_nonblocking (⟨false, [7, 8], 0⟩ : CollectorState Nat)).2 7 [8] rfl⟩

/-- C7: `get_all_data` returns exactly the queued items, in FIFO order
equal to the order in which they were enqueued (the queue list is kept in
enqueue order: `run` appends at the tail, `get_data` pops the head), and a
repeated call with no new arrivals returns the empty list. -/
theorem get_all_data_fifo_drain {α : Type} (s : CollectorState α) :
    (get_all_data s).2 = s.queue ∧
    (get_all_data ((get_all_data s).1)).2 = [] := by
  obtain ⟨fl, q, fc⟩ := s
  simp [get_all_data_spec]

/-- C8: `stop` is idempotent — a second call leaves the collector in
exactly the state of the first call, and `stop` has no effect beyond
setting the stop event (queue and Fetcher-call count are untouched). -/
theorem stop_idempotent {α : Type} (s : CollectorState α) :
    stop (stop s) = stop s ∧
    (stop s).queue = s.queue ∧
    (stop s).fetchCalls = s.fetchCalls := by
  exact ⟨rfl, rfl, rfl⟩

/-- C9: for every interval below 10 seconds, `__init__` emits the
below-recommended-interval warning and then raises: the warning check of
line 32 (`interval_s < 60`) runs before the validity check of line 35
raises, so even rejected constructions produce the warning. -/
theorem senec_init_warns_before_raising (i : Int) (h : i < 10) :
    (senec_init Nat i).1 = [intervalWarning] ∧
    (senec_init Nat i).2 = Except.error intervalError := by
  have h60 : i < 60 := by omega
  simp [senec_init, h, h60]

/-- C9 witness: interval 5 both warns and is rejected. -/
theorem senec_init_warns_before_raising_witness :
    (senec_init Nat 5).1 = [intervalWarning] ∧
    (senec_init Nat 5).2 = Except.error intervalError :=
  senec_init_warns_before_raising 5 (by norm_num)

/-- C10: immediately after `get_all_data` returns, the queue is empty:
`available_data` reports 0 and a further non-blocking `get_data` returns
`None`. -/
theorem get_all_data_leaves_queue_empty {α : Type} (s : CollectorState α) :
    available_data ((get_all_data s).1) = 0 ∧
    get_data ((get_all_data s).1) = ((get_all_data s).1, none) := by
  obtain ⟨fl, q, fc⟩ := s
  simp [get_all_data_spec, available_data, get_data]

end Senec2Mqtt
